import Mathlib

/-!
Shallow embedding of `watertap_contrib/reflo/unit_models/util/water_yield_calculation.py`
over the real numbers, together with theorems checking the natural-language
specification of the solar-still daily water-yield calculation against it.

Python floats are modelled as real numbers; `math.exp` / `np.exp` as `Real.exp`,
`math.log10` as `Real.logb 10`, and `**` with a non-integer exponent as `Real.rpow`.
NumPy arrays initialized with `np.zeros` are modelled as total functions that are
`0` outside the written index range.
-/

namespace WaterYield

noncomputable section

/-! ### Module-level constants (source lines 17-40) -/

def days_in_year : ℕ := 365

def hours_per_day : ℕ := 24

def seconds_per_day : ℕ := 86400

def stefan_boltzmann_constant : ℝ := 5.6697e-8

def thickness_insulation : ℝ := 0.005

def conductivity_insulation : ℝ := 0.033

def thickness_glass : ℝ := 0.004

def conductivity_glass : ℝ := 1.03

def gravity : ℝ := 9.81

def absorptivity_glass : ℝ := 0.047

def absorptivity_water : ℝ := 0.20

def absorptivity_basin : ℝ := 0.65

def reflectivity_glass : ℝ := 0.047

def reflectivity_water : ℝ := 0.08

def emissivity_glass : ℝ := 0.94

def emissivity_water : ℝ := 0.95 * 1.0

def emissivity_effective : ℝ :=
  1 / ((1 / emissivity_water) + (1 / emissivity_glass) - 1)

/-! ### Thermophysical property correlations (source lines 43-171) -/

/-- `calculate_density(salinity, temperature)`: density of saline water (kg/m^3). -/
def calculate_density (salinity temperature : ℝ) : ℝ :=
  let saltwater_density_coefficient_1 := ((2 * salinity) - 150) / 150
  let saltwater_density_coefficient_2 := (0.5 : ℝ)
  let saltwater_density_coefficient_3 := saltwater_density_coefficient_1
  let saltwater_density_coefficient_4 := (2 * (saltwater_density_coefficient_1 ^ 2)) - 1
  let saltwater_density_coefficient_5 :=
    (4.032 * saltwater_density_coefficient_2)
      + (0.115 * saltwater_density_coefficient_3)
      + ((3.26e-4) * saltwater_density_coefficient_4)
  let saltwater_density_coefficient_6 :=
    (-0.108 * saltwater_density_coefficient_2)
      + ((1.571e-3) * saltwater_density_coefficient_3)
      - ((4.23e-4) * saltwater_density_coefficient_4)
  let saltwater_density_coefficient_7 :=
    (-0.012 * saltwater_density_coefficient_2)
      + ((1.74e-3) * saltwater_density_coefficient_3)
      - ((9e-6) * saltwater_density_coefficient_4)
  let saltwater_density_coefficient_8 :=
    ((6.92e-4) * saltwater_density_coefficient_2)
      - ((8.7e-5) * saltwater_density_coefficient_3)
      - ((5.3e-5) * saltwater_density_coefficient_4)
  let saltwater_density_coefficient_9 := ((2 * temperature) - 200) / 160
  let saltwater_density_coefficient_10 := (0.5 : ℝ)
  let saltwater_density_coefficient_11 := saltwater_density_coefficient_9
  let saltwater_density_coefficient_12 := (2 * (saltwater_density_coefficient_9 ^ 2)) - 1
  let saltwater_density_coefficient_13 :=
    (4 * saltwater_density_coefficient_9 ^ 3) - 3 * saltwater_density_coefficient_9
  1e3 * ((saltwater_density_coefficient_5 * saltwater_density_coefficient_10)
    + (saltwater_density_coefficient_6 * saltwater_density_coefficient_11)
    + (saltwater_density_coefficient_7 * saltwater_density_coefficient_12)
    + (saltwater_density_coefficient_8 * saltwater_density_coefficient_13))

/-- `calculate_viscosity(salinity, temperature)`: dynamic viscosity (Pa.s). -/
def calculate_viscosity (salinity temperature : ℝ) : ℝ :=
  let freshwater_dynamic_viscosity :=
    (4.2844e-5) + (0.157 * ((temperature + 64.993) ^ 2) - 91.296)⁻¹
  let saltwater_dynamic_viscosity_coefficient_1 :=
    (1.474e-3) + ((1.5e-5) * temperature) - ((3.927e-8) * temperature ^ 2)
  let saltwater_dynamic_viscosity_coefficient_2 :=
    (1.073e-5) - ((8.5e-8) * temperature) + ((2.230e-10) * temperature ^ 2)
  freshwater_dynamic_viscosity *
    (1 + (saltwater_dynamic_viscosity_coefficient_1 * salinity)
       + (saltwater_dynamic_viscosity_coefficient_2 * salinity ^ 2))

/-- `calculate_specific_heat(salinity, temperature)`: specific heat (J/kg.K). -/
def calculate_specific_heat (salinity temperature : ℝ) : ℝ :=
  let freshwater_specific_heat :=
    3e-09 * temperature ^ 4 - 7e-07 * temperature ^ 3 + 7e-05 * temperature ^ 2
      - 0.0029 * temperature + 4.2194
  let saltwater_specific_heat_coefficient_1 :=
    5.328 - ((9.76e-2) * salinity) + ((4.04e-4) * salinity ^ 2)
  let saltwater_specific_heat_coefficient_2 :=
    (-6.913e-3) + ((7.351e-4) * salinity) - ((3.15e-6) * salinity ^ 2)
  let saltwater_specific_heat_coefficient_3 :=
    (9.6e-6) - ((1.927e-6) * salinity) + ((8.23e-9) * salinity ^ 2)
  let saltwater_specific_heat_coefficient_4 :=
    (2.5e-9) + ((1.66e-9) * salinity) - ((7.125e-12) * salinity ^ 2)
  -- `freshwater_specific_heat` is computed but unused in the source as well
  let _unused := freshwater_specific_heat
  1e3 * (saltwater_specific_heat_coefficient_1
    + (saltwater_specific_heat_coefficient_2 * (temperature + 273))
    + (saltwater_specific_heat_coefficient_3 * (temperature + 273) ^ 2)
    + (saltwater_specific_heat_coefficient_4 * (temperature + 273) ^ 3))

/-- Models the Python comparison `saltwater_thermal_conductivity_coefficient_3 == "nan"`
(source line 160): in Python, `==` between a `float` and a `str` never holds
(no cross-type coercion exists, and `str.__eq__`/`float.__eq__` both return
`NotImplemented`, so the comparison falls back to identity and is `False` for
every float value). -/
def pyFloatEqNanStr (_ : ℝ) : Bool := false

/-- `calculate_thermal_conductivity(salinity, temperature)`: thermal conductivity
(W/m.K), including the (never-firing) singularity guard of source lines 160-161. -/
def calculate_thermal_conductivity (salinity temperature : ℝ) : ℝ :=
  let saltwater_thermal_conductivity_coefficient_1 :=
    Real.logb 10 (240 + 0.0002 * salinity)
  let saltwater_thermal_conductivity_coefficient_2 :=
    0.434 * (2.3 - ((343.5 + (0.037 * salinity)) / (temperature + 273)))
  let saltwater_thermal_conductivity_coefficient_3 :=
    |1 - ((temperature + 273) / (647 + 0.03 * salinity))| ^ ((1 : ℝ) / 3)
  let saltwater_thermal_conductivity_coefficient_3_guarded :=
    if pyFloatEqNanStr saltwater_thermal_conductivity_coefficient_3 then (1 : ℝ)
    else saltwater_thermal_conductivity_coefficient_3
  let log_base_10_thermal_conductivity :=
    saltwater_thermal_conductivity_coefficient_1 +
      (saltwater_thermal_conductivity_coefficient_2 *
        saltwater_thermal_conductivity_coefficient_3_guarded)
  ((10 : ℝ) ^ log_base_10_thermal_conductivity) / 1e3

/-! ### Per-second step of the daily transient loop (source lines 277-581)

`StepInput` bundles the design parameters, the previous second's state
(`saltwater_temperature[i-1]`, `glass_temperature[i-1]`, `basin_temperature[i-1]`,
`ambient_temperature[i-1]`) and the current second's forcing
(`irradiance[i]`, `ambient_temperature[i]`, `wind_velocity[i]`). -/

structure StepInput where
  salinity : ℝ
  water_depth_basin : ℝ
  length_basin : ℝ
  saltwater_temperature_prev : ℝ
  glass_temperature_prev : ℝ
  basin_temperature_prev : ℝ
  ambient_temperature_prev : ℝ
  irradiance_cur : ℝ
  ambient_temperature_cur : ℝ
  wind_velocity_cur : ℝ

/-- Source lines 249-251: geometry of the square basin. -/
def area_bottom_basin (length_basin : ℝ) : ℝ := length_basin ^ 2

def area_side_water (length_basin water_depth_basin : ℝ) : ℝ :=
  (2 * (2 * length_basin)) * water_depth_basin

/-- Source lines 256-271: effective radiative absorption fractions. -/
def absorptivity_effective_water : ℝ :=
  absorptivity_water * (1 - absorptivity_glass) * (1 - reflectivity_glass) *
    (1 - reflectivity_water)

def absorptivity_effective_basin : ℝ :=
  absorptivity_basin * (1 - absorptivity_glass) * (1 - reflectivity_glass) *
    (1 - absorptivity_water) * (1 - reflectivity_water)

def absorptivity_effective_glass : ℝ := (1 - reflectivity_glass) * absorptivity_glass

/-- Source lines 280-285: the water-to-glass temperature differential, with the
singularity guard replacing a non-positive difference by 0.01. -/
def temperature_difference_inside_basin (st : StepInput) : ℝ :=
  if st.saltwater_temperature_prev - st.glass_temperature_prev ≤ 0 then 0.01
  else st.saltwater_temperature_prev - st.glass_temperature_prev

/-- Source lines 287-292: the glass-to-ambient temperature differential, with the
singularity guard replacing a non-positive difference by 0.01. -/
def temperature_difference_outside_basin (st : StepInput) : ℝ :=
  if st.glass_temperature_prev - st.ambient_temperature_prev ≤ 0 then 0.01
  else st.glass_temperature_prev - st.ambient_temperature_prev

/-- Source lines 273 and 294: `sky_temperature[j] = 0.0552 * ambient_temperature[j] ** 1.5`;
the loop body only ever reads `sky_temperature[i-1]`. -/
def sky_temperature_prev (st : StepInput) : ℝ :=
  0.0552 * st.ambient_temperature_prev ^ (1.5 : ℝ)

def saltwater_density (st : StepInput) : ℝ :=
  calculate_density st.salinity st.saltwater_temperature_prev

def saltwater_dynamic_viscosity (st : StepInput) : ℝ :=
  calculate_viscosity st.salinity st.saltwater_temperature_prev

def saltwater_specific_heat (st : StepInput) : ℝ :=
  calculate_specific_heat st.salinity st.saltwater_temperature_prev

def saltwater_thermal_conductivity (st : StepInput) : ℝ :=
  calculate_thermal_conductivity st.salinity st.saltwater_temperature_prev

/-- Source line 316: water mass in the basin (kg). -/
def saltwater_mass (st : StepInput) : ℝ :=
  saltwater_density st * (area_bottom_basin st.length_basin * st.water_depth_basin)

def saltwater_kinematic_viscosity (st : StepInput) : ℝ :=
  saltwater_dynamic_viscosity st / saltwater_density st

def saltwater_prandtl_number (st : StepInput) : ℝ :=
  (saltwater_specific_heat st * saltwater_dynamic_viscosity st) /
    saltwater_thermal_conductivity st

def freshwater_vaporization_latent_heat (st : StepInput) : ℝ :=
  (2501.67 - 2.389 * st.saltwater_temperature_prev) * 1000

def water_activity (st : StepInput) : ℝ := (-0.000566 * st.salinity) + 0.99853070

def saltwater_partial_vapor_pressure (st : StepInput) : ℝ :=
  water_activity st * Real.exp (25.317 - (5144 / (st.saltwater_temperature_prev + 273)))

def partial_vapor_pressure_at_glass (st : StepInput) : ℝ :=
  Real.exp (25.317 - (5144 / (st.glass_temperature_prev + 273)))

def adaptive_coefficient_heat_transfer_coefficient_with_buoyancy : ℝ := 0.54

def power_of_nondimensional_numbers_for_heat_transfer_coefficient_with_buoyancy : ℝ :=
  1 / 4

/-- Source lines 350-356: coefficient of volume expansion (1/°C). -/
def beta (st : StepInput) : ℝ :=
  1e-6 * (-0.000006 * st.saltwater_temperature_prev ^ 4
    + 0.001667 * st.saltwater_temperature_prev ^ 3
    - 0.197796 * st.saltwater_temperature_prev ^ 2
    + 16.862446 * st.saltwater_temperature_prev
    - 64.319951)

def saltwater_grashof_number (st : StepInput) : ℝ :=
  |(gravity * beta st *
      (st.basin_temperature_prev - st.saltwater_temperature_prev) *
      (st.water_depth_basin ^ 3)) / (saltwater_kinematic_viscosity st ^ 2)|

def water_heat_transfer_coefficient (st : StepInput) : ℝ :=
  |(saltwater_thermal_conductivity st / st.water_depth_basin) *
      adaptive_coefficient_heat_transfer_coefficient_with_buoyancy *
      (saltwater_grashof_number st * saltwater_prandtl_number st) ^
        power_of_nondimensional_numbers_for_heat_transfer_coefficient_with_buoyancy|

/-- Source lines 375-394: Dunkel convective coefficient from water to glass. -/
def convective_heat_transfer_coefficient_water_glass (st : StepInput) : ℝ :=
  0.884 *
    (|(st.saltwater_temperature_prev - st.glass_temperature_prev) +
        (((saltwater_partial_vapor_pressure st - partial_vapor_pressure_at_glass st) *
            (st.saltwater_temperature_prev + 273.15)) /
          (268900 - saltwater_partial_vapor_pressure st))| ^ ((1 : ℝ) / 3))

def radiative_heat_transfer_coefficient_water_glass (st : StepInput) : ℝ :=
  |emissivity_water * stefan_boltzmann_constant *
      ((((st.saltwater_temperature_prev + 273) ^ 2) +
          ((st.glass_temperature_prev + 273) ^ 2)) *
        (st.saltwater_temperature_prev + st.glass_temperature_prev + 546))|

/-- Source lines 408-415: evaporative coefficient; its denominator is the
guarded water-to-glass differential. -/
def evaporative_heat_transfer_coefficient_water_glass (st : StepInput) : ℝ :=
  |0.01628 * convective_heat_transfer_coefficient_water_glass st *
      ((saltwater_partial_vapor_pressure st - partial_vapor_pressure_at_glass st) /
        temperature_difference_inside_basin st)|

def total_heat_transfer_coefficient_water_glass (st : StepInput) : ℝ :=
  convective_heat_transfer_coefficient_water_glass st +
    radiative_heat_transfer_coefficient_water_glass st +
    evaporative_heat_transfer_coefficient_water_glass st

/-- Source lines 423-433: radiative glass-to-ambient coefficient; its denominator is
the guarded glass-to-ambient differential. -/
def radiative_heat_transfer_coefficient_glass_ambient (st : StepInput) : ℝ :=
  stefan_boltzmann_constant * emissivity_glass *
    ((((st.glass_temperature_prev + 273) ^ 4) -
        ((sky_temperature_prev st + 273) ^ 4)) /
      temperature_difference_outside_basin st)

/-- Source lines 434-451: wind-speed-dependent convective coefficient from the
basin to ambient. -/
def convective_heat_transfer_coefficient_basin_ambient (st : StepInput) : ℝ :=
  if 5 < st.wind_velocity_cur then 2.8 + (3.0 * st.wind_velocity_cur)
  else 2.8 + (3.8 * st.wind_velocity_cur)

/-- Source lines 434-451: wind-speed-dependent convective coefficient from the
glass cover to ambient. -/
def convective_heat_transfer_coefficient_glass_ambient (st : StepInput) : ℝ :=
  if 5 < st.wind_velocity_cur then 2.8 + (3.0 * st.wind_velocity_cur)
  else 2.8 + (3.8 * st.wind_velocity_cur)

def total_heat_transfer_coefficient_glass_ambient (st : StepInput) : ℝ :=
  convective_heat_transfer_coefficient_glass_ambient st +
    radiative_heat_transfer_coefficient_glass_ambient st

def total_heat_transfer_coefficient_basin_ambient (st : StepInput) : ℝ :=
  1 / ((thickness_insulation / conductivity_insulation) +
    (1 / convective_heat_transfer_coefficient_basin_ambient st))

/-- Source lines 464-487: effective overall absorptivity. -/
def effective_absorptivity (st : StepInput) : ℝ :=
  (absorptivity_effective_basin *
      (water_heat_transfer_coefficient st /
        (water_heat_transfer_coefficient st +
          total_heat_transfer_coefficient_basin_ambient st +
          convective_heat_transfer_coefficient_basin_ambient st)))
    + absorptivity_effective_water
    + (absorptivity_effective_glass *
        (total_heat_transfer_coefficient_water_glass st /
          (total_heat_transfer_coefficient_water_glass st +
            total_heat_transfer_coefficient_glass_ambient st)))

def overall_heat_loss_coefficient_glass_surroundings (st : StepInput) : ℝ :=
  ((conductivity_glass / thickness_glass) *
      total_heat_transfer_coefficient_glass_ambient st) /
    ((conductivity_glass / thickness_glass) +
      total_heat_transfer_coefficient_glass_ambient st)

def overall_bottom_heat_transfer_coefficient_water_mass_surroundings (st : StepInput) : ℝ :=
  (total_heat_transfer_coefficient_water_glass st *
      overall_heat_loss_coefficient_glass_surroundings st) /
    (total_heat_transfer_coefficient_water_glass st +
      overall_heat_loss_coefficient_glass_surroundings st)

def overall_bottom_heat_loss_coefficient_water_mass_surroundings (st : StepInput) : ℝ :=
  (water_heat_transfer_coefficient st *
      total_heat_transfer_coefficient_basin_ambient st) /
    (water_heat_transfer_coefficient st +
      total_heat_transfer_coefficient_basin_ambient st)

def overall_side_heat_loss_coefficient (st : StepInput) : ℝ :=
  (area_side_water st.length_basin st.water_depth_basin /
      area_bottom_basin st.length_basin) *
    overall_bottom_heat_loss_coefficient_water_mass_surroundings st

def overall_heat_transfer_coefficient_basin_surroundings (st : StepInput) : ℝ :=
  overall_bottom_heat_loss_coefficient_water_mass_surroundings st +
    overall_side_heat_loss_coefficient st

def overall_external_heat_transfer_loss_coefficient (st : StepInput) : ℝ :=
  overall_bottom_heat_transfer_coefficient_water_mass_surroundings st +
    overall_heat_transfer_coefficient_basin_surroundings st

/-- Source lines 527-529: `grouping_term`, the overall loss coefficient divided by
the thermal mass. -/
def grouping_term (st : StepInput) : ℝ :=
  overall_external_heat_transfer_loss_coefficient st /
    (saltwater_mass st * saltwater_specific_heat st)

/-- Source lines 530-536: `time_dependent_term`, absorbed irradiance plus ambient
loss divided by the thermal mass. -/
def time_dependent_term (st : StepInput) : ℝ :=
  ((effective_absorptivity st * st.irradiance_cur) +
      (overall_external_heat_transfer_loss_coefficient st *
        st.ambient_temperature_cur)) /
    (saltwater_mass st * saltwater_specific_heat st)

/-- Source lines 537-550: algebraic update of `glass_temperature[i]`. -/
def glass_temperature_next (st : StepInput) : ℝ :=
  ((absorptivity_effective_glass * st.irradiance_cur) +
      (total_heat_transfer_coefficient_water_glass st *
        st.saltwater_temperature_prev) +
      (overall_heat_loss_coefficient_glass_surroundings st *
        st.ambient_temperature_cur)) /
    (total_heat_transfer_coefficient_water_glass st +
      overall_heat_loss_coefficient_glass_surroundings st)

/-- Source lines 551-553: closed-form exponential update of
`saltwater_temperature[i]`, re-solved from the day's initial temperature `sw1`
(`saltwater_temperature[1]`) over elapsed time `t` (`time[i]`). -/
def saltwater_temperature_next (st : StepInput) (t sw1 : ℝ) : ℝ :=
  (time_dependent_term st / grouping_term st) *
      (1 - Real.exp (-grouping_term st * t)) +
    sw1 * Real.exp (-grouping_term st * t)

/-- Source lines 554-568: algebraic update of `basin_temperature[i]`. -/
def basin_temperature_next (st : StepInput) : ℝ :=
  ((absorptivity_effective_basin * st.irradiance_cur) +
      (water_heat_transfer_coefficient st * st.saltwater_temperature_prev) +
      ((total_heat_transfer_coefficient_basin_ambient st +
          convective_heat_transfer_coefficient_basin_ambient st) *
        st.basin_temperature_prev)) /
    (water_heat_transfer_coefficient st +
      total_heat_transfer_coefficient_basin_ambient st +
      convective_heat_transfer_coefficient_basin_ambient st)

/-- Source lines 572-577: evaporated fresh-water mass of the step (kg), taking the
just-updated water and glass temperatures `sw_cur`, `g_cur`. -/
def evaporated_freshwater_mass (st : StepInput) (sw_cur g_cur : ℝ) : ℝ :=
  (area_bottom_basin st.length_basin *
      evaporative_heat_transfer_coefficient_water_glass st *
      (sw_cur - g_cur) * 3600) / freshwater_vaporization_latent_heat st

/-! ### One simulated day (source lines 195-601) -/

/-- The design parameters together with one day's 24 hourly weather values
(irradiance already offset by +10 as read on source line 221). -/
structure DayInput where
  salinity : ℝ
  water_depth_basin : ℝ
  length_basin : ℝ
  hourly_irradiance : ℕ → ℝ
  hourly_ambient_temperature : ℕ → ℝ
  hourly_wind_velocity : ℕ → ℝ

/-- Source lines 228-235: hourly data broadcast to per-second arrays
(`array[3600*hour : 3600*hour + 3600] = hourly[hour]`). -/
def perSecond (hourly : ℕ → ℝ) (i : ℕ) : ℝ := hourly (i / 3600)

/-- Source lines 275-278: `time[1] = 1`, `time[i] = time[i-1] + 1`
(`time` is `np.zeros`-initialized, so `time[0] = 0`). -/
def time : ℕ → ℝ
  | 0 => 0
  | 1 => 1
  | (j + 2) => time (j + 1) + 1

/-- The three coupled unknowns of the transient loop at one second. -/
structure DayState where
  saltwater_temperature : ℝ
  glass_temperature : ℝ
  basin_temperature : ℝ

/-- Assembles the `StepInput` for second `i` from the previous second's state. -/
def stepInput (d : DayInput) (st : DayState) (i : ℕ) : StepInput :=
  ⟨d.salinity, d.water_depth_basin, d.length_basin,
    st.saltwater_temperature, st.glass_temperature, st.basin_temperature,
    perSecond d.hourly_ambient_temperature (i - 1),
    perSecond d.hourly_irradiance i,
    perSecond d.hourly_ambient_temperature i,
    perSecond d.hourly_wind_velocity i⟩

/-- The state trajectory of one day: index 0 keeps the `np.zeros` initialization,
index 1 holds the thermal-equilibrium initialization to the first hour's ambient
temperature (source lines 241-245), and each later index applies the loop body
(source lines 277-568). `saltwater_temperature[1]` is never overwritten, so the
initial water temperature passed to the exponential update is
`d.hourly_ambient_temperature 0`. -/
def dayStates (d : DayInput) : ℕ → DayState
  | 0 => ⟨0, 0, 0⟩
  | 1 => ⟨d.hourly_ambient_temperature 0, d.hourly_ambient_temperature 0,
      d.hourly_ambient_temperature 0⟩
  | (j + 2) =>
      let st := stepInput d (dayStates d (j + 1)) (j + 2)
      ⟨saltwater_temperature_next st (time (j + 2)) (d.hourly_ambient_temperature 0),
        glass_temperature_next st,
        basin_temperature_next st⟩

/-- Source lines 201 and 570-581: `evaporated_saltwater_mass` is
`np.zeros(86400)` and the loop writes only indices `2 ≤ i < 86400`. -/
def evaporated_saltwater_mass (d : DayInput) (i : ℕ) : ℝ :=
  if 2 ≤ i ∧ i < seconds_per_day then
    evaporated_freshwater_mass (stepInput d (dayStates d (i - 1)) i)
        (dayStates d i).saltwater_temperature (dayStates d i).glass_temperature /
      (1 + d.salinity / 1e3)
  else 0

/-- Source lines 587-588: `arr[arr < 0] = 0` followed by `arr[arr > 1] = 0`. -/
def clipMass (x : ℝ) : ℝ := if x < 0 then 0 else if 1 < x then 0 else x

/-- Source lines 584-594: hourly bucket mean of the clipped per-second evaporated
mass (`np.reshape(·, (24, 3600))` then `.mean(axis=1)`). -/
def total_evaporated_saltwater_in_year (m : ℕ → ℝ) (hour : ℕ) : ℝ :=
  (∑ j in Finset.range 3600, clipMass (m (3600 * hour + j))) / 3600

/-- Source line 597: water distilled in the hour per unit basin area (kg/m^2). -/
def hourly_productivity (m : ℕ → ℝ) (length_basin : ℝ) (hour : ℕ) : ℝ :=
  total_evaporated_saltwater_in_year m hour / area_bottom_basin length_basin

/-- Source line 599: the day's yield, `np.nansum` of the 24 hourly productivities. -/
def cumulative_daily_water_yield (m : ℕ → ℝ) (length_basin : ℝ) : ℝ :=
  ∑ hour in Finset.range hours_per_day, hourly_productivity m length_basin hour

/-- The full daily transient simulator: per-second loop plus aggregation. -/
def dayYield (d : DayInput) : ℝ :=
  cumulative_daily_water_yield (evaporated_saltwater_mass d) d.length_basin

/-! ### Season aggregation (source lines 185-614) -/

/-- One year of hourly weather, by row index: column 4 (irradiance, before the
+10 offset), column 7 (ambient temperature), column 11 (wind speed). -/
structure WeatherYear where
  irradiance : ℕ → ℝ
  ambient_temperature : ℕ → ℝ
  wind_velocity : ℕ → ℝ

/-- Python `range(0, stop, step)` for `step ≥ 1`. -/
def pyRange (stop step : ℕ) : List ℕ :=
  (List.range ((stop + step - 1) / step)).map (fun k => k * step)

/-- Source lines 186-189 after the sampling loop finishes: `daterow` is
`np.zeros(365)` with `daterow[tt] = tt * 24` for every `tt` in
`range(0, 365, interval_day + 1)`. The array only ever holds the exactly
representable integers `tt * 24`, so it is modelled over `ℕ`. -/
def daterow (step : ℕ) : ℕ → ℕ :=
  (pyRange days_in_year step).foldl
    (fun f tt => Function.update f tt (tt * 24)) (fun _ => 0)

/-- Source lines 190-192: the list comprehension keeping the nonzero `daterow`
entries in index order (its value after the sampling loop finishes). -/
def operational_matrix (step : ℕ) : List ℕ :=
  ((List.range days_in_year).filter (fun i => daterow step i ≠ 0)).map
    (fun i => daterow step i)

/-- Source lines 219-225: the `DayInput` for the day whose first weather row is
`u`, reading rows `u + kk` for the 24 hours `kk` and adding 10 to the
irradiance column. -/
def dayInputAt (w : WeatherYear) (salinity water_depth_basin length_basin : ℝ)
    (u : ℕ) : DayInput :=
  ⟨salinity, water_depth_basin, length_basin,
    fun kk => w.irradiance (u + kk) + 10,
    fun kk => w.ambient_temperature (u + kk),
    fun kk => w.wind_velocity (u + kk)⟩

/-- Source lines 195-601: the per-sampled-day yields, one per entry of
`operational_matrix` (`cumulative_yearly_water_yield`). -/
def cumulative_yearly_water_yield (w : WeatherYear) (interval_day : ℕ)
    (salinity water_depth_basin length_basin : ℝ) : List ℝ :=
  (operational_matrix (interval_day + 1)).map
    (fun u => dayYield (dayInputAt w salinity water_depth_basin length_basin u))

/-- Source lines 603-614: annual aggregation and the returned mean daily yield.
The Python division `days_in_year / len(operational_matrix)` raises
`ZeroDivisionError` when no day was sampled; this is modelled as `none`. -/
def get_solar_still_daily_water_yield (w : WeatherYear) (interval_day : ℕ)
    (salinity water_depth_basin length_basin : ℝ) : Option ℝ :=
  let ys := cumulative_yearly_water_yield w interval_day salinity
    water_depth_basin length_basin
  if ys.length = 0 then none
  else
    let annual_water_yield := (((days_in_year : ℝ) / ys.length) * ys.sum) / 1000
    let daily_water_yield_vol := annual_water_yield / days_in_year
    let daily_water_yield_mass := daily_water_yield_vol * 1000
    some daily_water_yield_mass

/-! ### Concrete inputs used to instantiate the theorems -/

/-- A step state whose previous water and glass temperatures differ by 0.005 °C:
salinity 20 g/L, depth 0.02 m, side 0.6 m, previous temperatures
(water, glass, basin, ambient) = (25.005, 25, 25, 25) °C, irradiance 510 W/m²,
current ambient 25 °C, wind 1 m/s. -/
def guardProbe : StepInput := ⟨20, 0.02, 0.6, 25.005, 25, 25, 25, 510, 25, 1⟩

/-- A step state with wind speed 6 m/s (above the 5 m/s threshold). -/
def windyProbe : StepInput := ⟨20, 0.02, 0.6, 30, 28, 29, 25, 510, 25, 6⟩

/-- A step state with wind speed 3 m/s (at or below the 5 m/s threshold). -/
def calmProbe : StepInput := ⟨20, 0.02, 0.6, 30, 28, 29, 25, 510, 25, 3⟩

/-- A constant synthetic weather year: no irradiance, 25 °C, 1 m/s wind. -/
def flatWeather : WeatherYear := ⟨fun _ => 0, fun _ => 25, fun _ => 1⟩

/-- A constant synthetic day at the default design parameters. -/
def flatDay : DayInput := ⟨20, 0.02, 0.6, fun _ => 10, fun _ => 25, fun _ => 1⟩

end

/-! ### Helper lemmas -/

lemma clipMass_nonneg (x : ℝ) : 0 ≤ clipMass x := by
  unfold clipMass
  split_ifs with h1 h2
  · norm_num
  · norm_num
  · exact le_of_not_lt h1

lemma clipMass_le_one (x : ℝ) : clipMass x ≤ 1 := by
  unfold clipMass
  split_ifs with h1 h2
  · norm_num
  · norm_num
  · exact le_of_not_lt h2

lemma clipMass_zero : clipMass 0 = 0 := by norm_num [clipMass]

lemma time_eq : ∀ i : ℕ, 1 ≤ i → time i = (i : ℝ)
  | 0, h => by omega
  | 1, _ => by norm_num [time]
  | (j + 2), _ => by
      have ih := time_eq (j + 1) (by omega)
      simp only [time] at ih ⊢
      rw [ih]
      push_cast
      ring

lemma foldl_update_apply (l : List ℕ) (base : ℕ → ℕ) (i : ℕ) :
    (l.foldl (fun f tt => Function.update f tt (tt * 24)) base) i =
      if i ∈ l then i * 24 else base i := by
  induction l generalizing base with
  | nil => simp
  | cons a l ih =>
      simp only [List.foldl_cons]
      rw [ih]
      by_cases h : i ∈ l
      · simp [h]
      · by_cases ha : i = a
        · subst ha
          simp [h, Function.update_same]
        · simp [h, ha, Function.update_noteq ha]

lemma lt_pyRange_len_iff (step k : ℕ) (hs : 0 < step) :
    k < (days_in_year + step - 1) / step ↔ k * step < days_in_year := by
  have h1 : days_in_year + step - 1 = 364 + step := by
    unfold days_in_year
    omega
  rw [h1, Nat.add_div_right _ hs, Nat.lt_succ_iff, Nat.le_div_iff_mul_le hs]
  unfold days_in_year
  omega

lemma mem_pyRange (step i : ℕ) (hs : 0 < step) :
    i ∈ pyRange days_in_year step ↔ step ∣ i ∧ i < days_in_year := by
  unfold pyRange
  simp only [List.mem_map, List.mem_range]
  constructor
  · rintro ⟨k, hk, rfl⟩
    exact ⟨dvd_mul_left step k, (lt_pyRange_len_iff step k hs).mp hk⟩
  · rintro ⟨⟨k, rfl⟩, hlt⟩
    refine ⟨k, ?_, mul_comm k step⟩
    rw [lt_pyRange_len_iff step k hs, mul_comm]
    exact hlt

lemma daterow_apply (step i : ℕ) (hs : 0 < step) :
    daterow step i = if step ∣ i ∧ i < days_in_year then i * 24 else 0 := by
  rw [daterow, foldl_update_apply, if_congr (mem_pyRange step i hs) rfl rfl]

lemma daterow_ne_zero_iff (step i : ℕ) (hs : 0 < step) :
    daterow step i ≠ 0 ↔ 0 < i ∧ i < days_in_year ∧ step ∣ i := by
  rw [daterow_apply step i hs]
  by_cases h : step ∣ i ∧ i < days_in_year
  · rw [if_pos h]
    omega
  · rw [if_neg h]
    simp only [ne_eq, not_true_eq_false, false_iff]
    omega

lemma mem_operational_matrix (step v : ℕ) (hs : 0 < step) :
    v ∈ operational_matrix step ↔
      ∃ d : ℕ, 0 < d ∧ d < days_in_year ∧ step ∣ d ∧ v = 24 * d := by
  unfold operational_matrix
  simp only [List.mem_map, List.mem_filter, List.mem_range, decide_eq_true_eq]
  constructor
  · rintro ⟨i, ⟨hilt, hne⟩, rfl⟩
    obtain ⟨hpos, hlt, hdvd⟩ := (daterow_ne_zero_iff step i hs).mp hne
    refine ⟨i, hpos, hlt, hdvd, ?_⟩
    rw [daterow_apply step i hs, if_pos ⟨hdvd, hlt⟩, mul_comm]
  · rintro ⟨d, hpos, hlt, hdvd, rfl⟩
    refine ⟨d, ⟨hlt, (daterow_ne_zero_iff step d hs).mpr ⟨hpos, hlt, hdvd⟩⟩, ?_⟩
    rw [daterow_apply step d hs, if_pos ⟨hdvd, hlt⟩, mul_comm]

lemma operational_matrix_nodup (step : ℕ) (hs : 0 < step) :
    (operational_matrix step).Nodup := by
  unfold operational_matrix
  have hbase : ((List.range days_in_year).filter
      (fun i => daterow step i ≠ 0)).Nodup :=
    List.Nodup.filter _ (List.nodup_range days_in_year)
  have hmap : ((List.range days_in_year).filter
        (fun i => daterow step i ≠ 0)).map (fun i => i * 24) =
      ((List.range days_in_year).filter
        (fun i => daterow step i ≠ 0)).map (fun i => daterow step i) := by
    apply List.map_congr_left
    intro i hi
    obtain ⟨hilt, hne⟩ := List.mem_filter.mp hi
    rw [decide_eq_true_eq] at hne
    obtain ⟨_, hlt, hdvd⟩ := (daterow_ne_zero_iff step i hs).mp hne
    rw [daterow_apply step i hs, if_pos ⟨hdvd, hlt⟩]
  rw [← hmap]
  exact hbase.map (fun a b h => by omega)

/-! ### Claim theorems -/

/-- Claim C1, counterexample: with previous water temperature 25.005 °C and
previous glass temperature 25 °C, the raw differential 0.005 °C is positive, so
the guard does not fire and the value actually used is 0.005 °C, which is below
the claimed 0.01 °C floor. -/
theorem temperature_difference_floor_cex :
    temperature_difference_inside_basin guardProbe < 0.01 := by
  norm_num [temperature_difference_inside_basin, guardProbe]

/-- Claim C1, amended: the guard replaces a non-positive raw differential by
0.01 °C and leaves a positive raw differential unchanged; hence the value used
downstream is always strictly positive, and it is at least 0.01 °C unless it
equals a raw differential lying in (0, 0.01). -/
theorem temperature_difference_guard_amended (st : StepInput) :
    0 < temperature_difference_inside_basin st ∧
    0 < temperature_difference_outside_basin st ∧
    (0.01 ≤ temperature_difference_inside_basin st ∨
      temperature_difference_inside_basin st =
        st.saltwater_temperature_prev - st.glass_temperature_prev) ∧
    (0.01 ≤ temperature_difference_outside_basin st ∨
      temperature_difference_outside_basin st =
        st.glass_temperature_prev - st.ambient_temperature_prev) := by
  unfold temperature_difference_inside_basin temperature_difference_outside_basin
  refine ⟨?_, ?_, ?_, ?_⟩
  · split_ifs with h
    · norm_num
    · linarith [lt_of_not_le h]
  · split_ifs with h
    · norm_num
    · linarith [lt_of_not_le h]
  · split_ifs with h
    · left; norm_num
    · right; rfl
  · split_ifs with h
    · left; norm_num
    · right; rfl

/-- Claim C2: the NaN guard in `calculate_thermal_conductivity` compares a float
with a string and never fires, so the returned conductivity is always
`10 ^ (c1 + c2 * c3) / 1000` with the fractional-power term `c3` unmodified. -/
theorem thermal_conductivity_nan_guard_dead (salinity temperature : ℝ) :
    pyFloatEqNanStr
        (|1 - ((temperature + 273) / (647 + 0.03 * salinity))| ^ ((1 : ℝ) / 3))
      = false ∧
    calculate_thermal_conductivity salinity temperature =
      ((10 : ℝ) ^ (Real.logb 10 (240 + 0.0002 * salinity) +
          (0.434 * (2.3 - ((343.5 + (0.037 * salinity)) / (temperature + 273)))) *
            (|1 - ((temperature + 273) / (647 + 0.03 * salinity))| ^ ((1 : ℝ) / 3))))
        / 1e3 := by
  refine ⟨rfl, ?_⟩
  simp [calculate_thermal_conductivity, pyFloatEqNanStr]

/-- Claim C7: the convective heat-transfer coefficients from the glass cover and
from the basin to ambient equal `2.8 + 3.0 * wind` when the wind speed exceeds
5 m/s and `2.8 + 3.8 * wind` otherwise. -/
theorem convective_coefficient_wind_regimes (st : StepInput) :
    (5 < st.wind_velocity_cur →
      convective_heat_transfer_coefficient_glass_ambient st
          = 2.8 + 3.0 * st.wind_velocity_cur ∧
        convective_heat_transfer_coefficient_basin_ambient st
          = 2.8 + 3.0 * st.wind_velocity_cur) ∧
    (st.wind_velocity_cur ≤ 5 →
      convective_heat_transfer_coefficient_glass_ambient st
          = 2.8 + 3.8 * st.wind_velocity_cur ∧
        convective_heat_transfer_coefficient_basin_ambient st
          = 2.8 + 3.8 * st.wind_velocity_cur) := by
  unfold convective_heat_transfer_coefficient_glass_ambient
    convective_heat_transfer_coefficient_basin_ambient
  constructor
  · intro h
    rw [if_pos h]
    exact ⟨rfl, rfl⟩
  · intro h
    rw [if_neg (not_lt.mpr h)]
    exact ⟨rfl, rfl⟩

/-- Witness for claim C7 at wind speeds 6 m/s and 3 m/s. -/
theorem convective_coefficient_wind_regimes_witness :
    ((5 : ℝ) < windyProbe.wind_velocity_cur ∧
      (convective_heat_transfer_coefficient_glass_ambient windyProbe
          = 2.8 + 3.0 * windyProbe.wind_velocity_cur ∧
        convective_heat_transfer_coefficient_basin_ambient windyProbe
          = 2.8 + 3.0 * windyProbe.wind_velocity_cur)) ∧
    (calmProbe.wind_velocity_cur ≤ (5 : ℝ) ∧
      (convective_heat_transfer_coefficient_glass_ambient calmProbe
          = 2.8 + 3.8 * calmProbe.wind_velocity_cur ∧
        convective_heat_transfer_coefficient_basin_ambient calmProbe
          = 2.8 + 3.8 * calmProbe.wind_velocity_cur)) := by
  have hw : (5 : ℝ) < windyProbe.wind_velocity_cur := by norm_num [windyProbe]
  have hc : calmProbe.wind_velocity_cur ≤ (5 : ℝ) := by norm_num [calmProbe]
  exact ⟨⟨hw, (convective_coefficient_wind_regimes windyProbe).1 hw⟩,
    ⟨hc, (convective_coefficient_wind_regimes calmProbe).2 hc⟩⟩

/-- Claim C8: at salinity 0 g/L and temperature 4 °C the density correlation
returns a value within 2 % of 1000 kg/m³. -/
theorem density_freshwater_reference :
    |calculate_density 0 4 - 1000| ≤ 2 / 100 * 1000 := by
  rw [abs_le]
  constructor <;> norm_num [calculate_density]

/-- Claim C4: every per-second evaporated-mass entry retained after the
`[0, 1]` kg clipping lies in `[0, 1]` (in particular is nonnegative), and the
day's yield is the sum of the 24 hourly bucket means divided by the basin
bottom area `length_basin ^ 2`. -/
theorem clipped_mass_bounds_and_day_yield (d : DayInput) :
    (∀ i : ℕ, 0 ≤ clipMass (evaporated_saltwater_mass d i) ∧
      clipMass (evaporated_saltwater_mass d i) ≤ 1) ∧
    dayYield d =
      (∑ hour in Finset.range hours_per_day,
        total_evaporated_saltwater_in_year (evaporated_saltwater_mass d) hour) /
        d.length_basin ^ 2 := by
  constructor
  · intro i
    exact ⟨clipMass_nonneg _, clipMass_le_one _⟩
  · rw [dayYield, cumulative_daily_water_yield, Finset.sum_div]
    simp only [hourly_productivity, area_bottom_basin]

/-- Claim C9: the per-second loop runs from second 2, so the evaporated-mass
entries at seconds 0 and 1 keep their zero initialization for every day input,
and the first hourly bucket mean reduces to a sum over seconds 2 to 3599
(still divided by 3600). -/
theorem initial_seconds_structurally_zero (d : DayInput) :
    evaporated_saltwater_mass d 0 = 0 ∧
    evaporated_saltwater_mass d 1 = 0 ∧
    total_evaporated_saltwater_in_year (evaporated_saltwater_mass d) 0 =
      (∑ j in Finset.Ico 2 3600, clipMass (evaporated_saltwater_mass d j)) / 3600 := by
  have h0 : evaporated_saltwater_mass d 0 = 0 := by
    rw [evaporated_saltwater_mass, if_neg]
    omega
  have h1 : evaporated_saltwater_mass d 1 = 0 := by
    rw [evaporated_saltwater_mass, if_neg]
    omega
  refine ⟨h0, h1, ?_⟩
  have hsum : ∑ j in Finset.range 3600,
      clipMass (evaporated_saltwater_mass d (3600 * 0 + j)) =
      ∑ j in Finset.Ico 2 3600, clipMass (evaporated_saltwater_mass d j) := by
    simp only [mul_zero, zero_add]
    rw [Finset.range_eq_Ico,
      ← Finset.sum_Ico_consecutive _ (by norm_num : (0 : ℕ) ≤ 2)
        (by norm_num : (2 : ℕ) ≤ 3600)]
    have hfirst : ∑ j in Finset.Ico 0 2, clipMass (evaporated_saltwater_mass d j) = 0 := by
      rw [← Finset.range_eq_Ico]
      simp [Finset.sum_range_succ, h0, h1, clipMass_zero]
    rw [hfirst, zero_add]
  rw [total_evaporated_saltwater_in_year, hsum]

/-- Claim C3: at every second `i` of the loop, `time[i] = i` and the water
temperature is updated by the closed-form exponential re-solved from the start
of the day with that step's aggregate coefficients: it equals
`(F/G) * (1 - exp(-G*i)) + saltwater_temperature[1] * exp(-G*i)` where
`G = grouping_term` and `F = time_dependent_term` of the current step, so every
step references the initial temperature `saltwater_temperature[1]`. -/
theorem water_temperature_closed_form_update (d : DayInput) (i : ℕ)
    (h2 : 2 ≤ i) (hlt : i < seconds_per_day) :
    time i = (i : ℝ) ∧
    (dayStates d i).saltwater_temperature =
      (time_dependent_term (stepInput d (dayStates d (i - 1)) i) /
          grouping_term (stepInput d (dayStates d (i - 1)) i)) *
        (1 - Real.exp (-grouping_term (stepInput d (dayStates d (i - 1)) i) * (i : ℝ))) +
      (dayStates d 1).saltwater_temperature *
        Real.exp (-grouping_term (stepInput d (dayStates d (i - 1)) i) * (i : ℝ)) := by
  have ht : time i = (i : ℝ) := time_eq i (by omega)
  refine ⟨ht, ?_⟩
  obtain ⟨j, rfl⟩ : ∃ j, i = j + 2 := ⟨i - 2, by omega⟩
  show (dayStates d (j + 2)).saltwater_temperature = _
  have hidx : j + 2 - 1 = j + 1 := rfl
  simp only [dayStates, hidx]
  rw [saltwater_temperature_next, ht]

/-- Witness for claim C3 at second 2 of the constant synthetic day. -/
theorem water_temperature_closed_form_update_witness :
    2 ≤ 2 ∧ 2 < seconds_per_day ∧
    (time 2 = ((2 : ℕ) : ℝ) ∧
      (dayStates flatDay 2).saltwater_temperature =
        (time_dependent_term (stepInput flatDay (dayStates flatDay (2 - 1)) 2) /
            grouping_term (stepInput flatDay (dayStates flatDay (2 - 1)) 2)) *
          (1 - Real.exp (-grouping_term (stepInput flatDay (dayStates flatDay (2 - 1)) 2) *
            ((2 : ℕ) : ℝ))) +
        (dayStates flatDay 1).saltwater_temperature *
          Real.exp (-grouping_term (stepInput flatDay (dayStates flatDay (2 - 1)) 2) *
            ((2 : ℕ) : ℝ))) :=
  ⟨by norm_num, by norm_num [seconds_per_day],
    water_temperature_closed_form_update flatDay 2 (by norm_num)
      (by norm_num [seconds_per_day])⟩

/-- Claim C5: for every `interval_day`, the sampled weather-row offsets are
exactly `24 * d` for the positive multiples `d` of `interval_day + 1` strictly
below 365 (day 0 excluded), each such day appears exactly once, and the daily
simulator is invoked once per entry on the day input whose hourly rows start at
that offset. -/
theorem sampled_days_stride (interval_day : ℕ) (w : WeatherYear) (sal dw lb : ℝ) :
    (∀ u : ℕ, u ∈ operational_matrix (interval_day + 1) ↔
      ∃ d : ℕ, 0 < d ∧ d < days_in_year ∧ (interval_day + 1) ∣ d ∧ u = 24 * d) ∧
    (operational_matrix (interval_day + 1)).Nodup ∧
    cumulative_yearly_water_yield w interval_day sal dw lb =
      (operational_matrix (interval_day + 1)).map
        (fun u => dayYield (dayInputAt w sal dw lb u)) :=
  ⟨fun u => mem_operational_matrix (interval_day + 1) u (Nat.succ_pos _),
    operational_matrix_nodup _ (Nat.succ_pos _), rfl⟩

/-- Claim C10: when `interval_day ≥ 364` the stride reaches no positive day
below 365, the sampled-day list is empty, and the annual aggregation divides
365 by zero: the run fails (modelled as `none`) instead of returning a yield. -/
theorem empty_sample_division_by_zero (interval_day : ℕ) (h : 364 ≤ interval_day)
    (w : WeatherYear) (sal dw lb : ℝ) :
    operational_matrix (interval_day + 1) = [] ∧
    get_solar_still_daily_water_yield w interval_day sal dw lb = none := by
  have hempty : operational_matrix (interval_day + 1) = [] := by
    rw [List.eq_nil_iff_forall_not_mem]
    intro v hv
    obtain ⟨d, hpos, hlt, hdvd, _⟩ :=
      (mem_operational_matrix (interval_day + 1) v (Nat.succ_pos _)).mp hv
    have hle : interval_day + 1 ≤ d := Nat.le_of_dvd hpos hdvd
    unfold days_in_year at hlt
    omega
  refine ⟨hempty, ?_⟩
  simp [get_solar_still_daily_water_yield, cumulative_yearly_water_yield, hempty]

/-- Witness for claim C10 at `interval_day = 364`. -/
theorem empty_sample_division_by_zero_witness :
    364 ≤ 364 ∧ (operational_matrix (364 + 1) = [] ∧
      get_solar_still_daily_water_yield flatWeather 364 20 0.02 0.6 = none) :=
  ⟨le_refl 364,
    empty_sample_division_by_zero 364 (le_refl 364) flatWeather 20 0.02 0.6⟩

/-- Claim C6: with at least one sampled day, the returned scalar equals
`annual_water_yield * 1000 / 365` with
`annual_water_yield = (365 / n) * sum / 1000`, and in exact arithmetic this
round-trip equals the arithmetic mean `sum / n` of the sampled days' yields. -/
theorem returned_yield_is_mean_of_sampled_days (w : WeatherYear)
    (interval_day : ℕ) (sal dw lb : ℝ)
    (h : (cumulative_yearly_water_yield w interval_day sal dw lb).length ≠ 0) :
    get_solar_still_daily_water_yield w interval_day sal dw lb =
      some ((((days_in_year : ℝ) /
            (cumulative_yearly_water_yield w interval_day sal dw lb).length) *
            (cumulative_yearly_water_yield w interval_day sal dw lb).sum / 1000) *
          1000 / days_in_year) ∧
    get_solar_still_daily_water_yield w interval_day sal dw lb =
      some ((cumulative_yearly_water_yield w interval_day sal dw lb).sum /
        (cumulative_yearly_water_yield w interval_day sal dw lb).length) := by
  have hn : ((cumulative_yearly_water_yield w interval_day sal dw lb).length : ℝ) ≠ 0 :=
    Nat.cast_ne_zero.mpr h
  constructor
  · simp only [get_solar_still_daily_water_yield]
    rw [if_neg h, Option.some_inj]
    ring
  · simp only [get_solar_still_daily_water_yield]
    rw [if_neg h, Option.some_inj]
    have hd : ((days_in_year : ℕ) : ℝ) ≠ 0 := by norm_num [days_in_year]
    field_simp
    ring

/-- Witness for claim C6 at `interval_day = 181` (two sampled days). -/
theorem returned_yield_is_mean_witness :
    (cumulative_yearly_water_yield flatWeather 181 20 0.02 0.6).length ≠ 0 ∧
    get_solar_still_daily_water_yield flatWeather 181 20 0.02 0.6 =
      some ((cumulative_yearly_water_yield flatWeather 181 20 0.02 0.6).sum /
        (cumulative_yearly_water_yield flatWeather 181 20 0.02 0.6).length) := by
  have h : (cumulative_yearly_water_yield flatWeather 181 20 0.02 0.6).length ≠ 0 := by
    simp only [cumulative_yearly_water_yield, List.length_map]
    decide
  exact ⟨h, (returned_yield_is_mean_of_sampled_days flatWeather 181 20 0.02 0.6 h).2⟩

end WaterYield
